import Mathlib

/-!
Shallow embedding of the WhatsApp connection-session lifecycle manager of
`src/backend/src/whatsapp/whatsapp.service.ts` (NestJS `WhatsappService`,
Baileys transport, database-backed credential store), together with the
legacy `onModuleInit` variant of the whatsapp-web.js service
(`src/unnamed/part_003`).

Conventions of the embedding:
* times are milliseconds as integers (`ℤ`), like `Date.now()`;
* JavaScript numbers produced by `Math.random()` (a real in `[0,1)`) are
  modelled as rationals `r : ℚ`;
* the JavaScript `Map` is modelled as an association list with unique keys,
  with `set` / `get` / `delete` implementing the JS semantics;
* repository writes (`sessionRepository.update`) and other side effects are
  made explicit as data returned by the embedded functions.
-/

namespace Whatsapp

/-- Session status enum of `whatsapp-session.entity.ts`. -/
inductive SessionStatus
  | pending
  | connected
  | disconnected
  | failed
  deriving DecidableEq, Repr

/-- Message status enum of `message-log.entity.ts`. -/
inductive MessageStatus
  | pending
  | sent
  | delivered
  | failed
  deriving DecidableEq, Repr

/-- Error categories of `whatsapp.service.ts` (enum `ErrorCategory`). -/
inductive ErrorCategory
  | temporary
  | rateLimited
  | loggedOut
  | fatal
  deriving DecidableEq, Repr

/-- `RATE_LIMIT_MAX = 30` (max 30 messages per window per session). -/
def RATE_LIMIT_MAX : Nat := 30

/-- `RATE_LIMIT_WINDOW = 60000` ms (1 minute). -/
def RATE_LIMIT_WINDOW : Int := 60000

/-- `MAX_RETRIES = 5`. -/
def MAX_RETRIES : Nat := 5

/-- `BASE_RETRY_DELAY = 2000` ms (2 seconds). -/
def BASE_RETRY_DELAY : ℚ := 2000

/-- `MAX_RETRY_DELAY = 300000` ms (5 minutes). -/
def MAX_RETRY_DELAY : ℚ := 300000

/-- `HEALTH_CHECK_INTERVAL = 30000` ms. -/
def HEALTH_CHECK_INTERVAL : Int := 30000

/-- The Baileys constant `DisconnectReason.loggedOut`, whose numeric value
is 401 in `@whiskeysockets/baileys`. -/
def DisconnectReason.loggedOut : Nat := 401

/-- JavaScript `a || b` for the status-code extraction
`(lastDisconnect?.error as Boom)?.output?.statusCode || 500`:
a missing (`undefined`) or zero status code falls back to the default. -/
def jsOrDefault (code : Option Nat) (dflt : Nat) : Nat :=
  match code with
  | none => dflt
  | some c => if c = 0 then dflt else c

/-- `categorizeError` of `whatsapp.service.ts` (lines 103–122): a switch on
the numeric status code, falling through to a 4xx check. -/
def categorizeError (statusCode : Nat) : ErrorCategory :=
  if statusCode = DisconnectReason.loggedOut ∨ statusCode = 401 then
    ErrorCategory.loggedOut
  else if statusCode = 408 ∨ statusCode = 500 ∨ statusCode = 502 ∨
      statusCode = 503 ∨ statusCode = 515 then
    ErrorCategory.temporary
  else if statusCode = 429 then
    ErrorCategory.rateLimited
  else if 400 ≤ statusCode ∧ statusCode < 500 then
    ErrorCategory.fatal
  else
    ErrorCategory.temporary

/-- The pre-jitter delay of `getRetryDelay`:
`Math.min(BASE_RETRY_DELAY * Math.pow(2, retryCount), MAX_RETRY_DELAY)`. -/
def preJitterDelay (retryCount : Nat) : ℚ :=
  min (BASE_RETRY_DELAY * 2 ^ retryCount) MAX_RETRY_DELAY

/-- `getRetryDelay` of `whatsapp.service.ts` (lines 125–133).  The jitter
source `r` stands for the `Math.random()` sample, a real in `[0,1)`:
`jitter = delay * 0.2 * (r - 0.5)` and the result is
`Math.floor(delay + jitter)`. -/
def getRetryDelay (r : ℚ) (retryCount : Nat) : ℤ :=
  let delay := preJitterDelay retryCount
  let jitter := delay * (1/5) * (r - 1/2)
  ⌊delay + jitter⌋

/-- Rate limit entry `{count, resetTime}` of `whatsapp.service.ts`. -/
structure RateLimitEntry where
  count : Nat
  resetTime : Int
  deriving DecidableEq, Repr

/-- Result of the rate check: `{ allowed: boolean; waitTime?: number }`. -/
structure RateCheckResult where
  allowed : Bool
  waitTime : Option Int
  deriving DecidableEq, Repr

/-- `checkRateLimit` of `whatsapp.service.ts` (lines 136–151), for one
session: takes the current time and the entry stored in `rateLimits` for the
session (or `none`), and returns the check result together with the entry
left in the map afterwards. -/
def checkRateLimit (now : Int) (entry : Option RateLimitEntry) :
    RateCheckResult × RateLimitEntry :=
  match entry with
  | none =>
      (⟨true, none⟩, ⟨1, now + RATE_LIMIT_WINDOW⟩)
  | some e =>
      if now > e.resetTime then
        (⟨true, none⟩, ⟨1, now + RATE_LIMIT_WINDOW⟩)
      else if e.count ≥ RATE_LIMIT_MAX then
        (⟨false, some (e.resetTime - now)⟩, e)
      else
        (⟨true, none⟩, ⟨e.count + 1, e.resetTime⟩)

/-- Iterate `checkRateLimit` `k` times at a fixed time `now`, returning the
entry after the calls (accumulating from a starting entry). -/
def rateLimitAfter (now : Int) (entry : Option RateLimitEntry) : Nat → Option RateLimitEntry
  | 0 => entry
  | k + 1 => some (checkRateLimit now (rateLimitAfter now entry k)).2

/-- Character is an ASCII digit — the class `[0-9]` of the recipient
normalization regex. -/
def isDigitChar (c : Char) : Bool := '0' ≤ c ∧ c ≤ '9'

/-- `recipient.replace(/[^0-9]/g, '')`: strip every non-digit character. -/
def stripNonDigits (s : List Char) : List Char := s.filter isDigitChar

/-- Recipient normalization of `sendMessage` (lines 496–505 of
`whatsapp.service.ts`): strip non-digits, prepend `'91'` when exactly 10
digits remain, and append `'@s.whatsapp.net'` unless the string already
contains `'@'`. -/
def formatRecipient (recipient : List Char) : List Char :=
  let formatted := stripNonDigits recipient
  let formatted :=
    if formatted.length = 10 then '9' :: '1' :: formatted else formatted
  if formatted.contains '@' then formatted
  else formatted ++ "@s.whatsapp.net".toList

/-! ### JavaScript `Map<number, ·>` model -/

/-- `Map.prototype.get`: the value of the (unique) entry with key `k`. -/
def mapGet (m : List (Nat × α)) (k : Nat) : Option α :=
  (m.find? (fun p => p.1 == k)).map Prod.snd

/-- `Map.prototype.has`. -/
def mapHas (m : List (Nat × α)) (k : Nat) : Bool :=
  (m.find? (fun p => p.1 == k)).isSome

/-- `Map.prototype.set`: replace the entry with key `k` in place if present,
otherwise append a new entry. -/
def mapSet (m : List (Nat × α)) (k : Nat) (v : α) : List (Nat × α) :=
  if mapHas m k then m.map (fun p => if p.1 == k then (k, v) else p)
  else m ++ [(k, v)]

/-- `Map.prototype.delete`. -/
def mapDelete (m : List (Nat × α)) (k : Nat) : List (Nat × α) :=
  m.filter (fun p => !(p.1 == k))

/-- Number of entries registered under key `k`. -/
def countKey (m : List (Nat × α)) (k : Nat) : Nat :=
  m.countP (fun p => p.1 == k)

/-! ### Connection Supervisor state -/

/-- In-memory `ActiveClient` of `whatsapp.service.ts` (lines 22–29).  The
live `WASocket` handle is identified by a number. -/
structure ActiveClient where
  socketId : Nat
  sessionId : Nat
  userId : Nat
  retryCount : Nat
  lastActivity : Int
  healthCheckInterval : Option Nat
  deriving DecidableEq, Repr

/-- The supervisor's in-memory state plus a ledger of teardown side effects:
`endedSockets` records every socket on which `socket.end(undefined)` was
called, `clearedTimers` every health-check interval handle passed to
`clearInterval`. -/
structure SupervisorState where
  clients : List (Nat × ActiveClient)
  endedSockets : List Nat
  clearedTimers : List Nat
  deriving Repr

/-- `stopHealthCheck` of `whatsapp.service.ts` (lines 188–194): if the
client for the session has a health-check interval, clear it and set the
field to `undefined`. -/
def stopHealthCheck (st : SupervisorState) (sessionId : Nat) : SupervisorState :=
  match mapGet st.clients sessionId with
  | none => st
  | some client =>
      match client.healthCheckInterval with
      | none => st
      | some timer =>
          { st with
            clients := mapSet st.clients sessionId
              { client with healthCheckInterval := none },
            clearedTimers := timer :: st.clearedTimers }

/-- The "close existing connection if any" prologue of `initializeClient`
(lines 228–238): stop the health check, end the existing socket, and remove
the map entry. -/
def teardownExisting (st : SupervisorState) (sessionId : Nat) : SupervisorState :=
  if mapHas st.clients sessionId then
    let st' :=
      match mapGet st.clients sessionId with
      | some existing =>
          let st₁ := stopHealthCheck st sessionId
          { st₁ with endedSockets := existing.socketId :: st₁.endedSockets }
      | none => st
    { st' with clients := mapDelete st'.clients sessionId }
  else st

/-- The "store client with retry tracking" step of `initializeClient`
(lines 268–275): `this.clients.set(sessionId, {socket, sessionId, userId,
retryCount, lastActivity: new Date()})`. -/
def storeNewClient (st : SupervisorState) (sessionId userId socketId retryCount : Nat)
    (now : Int) : SupervisorState :=
  { st with
    clients := mapSet st.clients sessionId
      ⟨socketId, sessionId, userId, retryCount, now, none⟩ }

/-- Registration path of `initializeClient` for the in-memory map: teardown
of any existing connection followed by the store of the new one. -/
def initRegister (st : SupervisorState) (sessionId userId socketId retryCount : Nat)
    (now : Int) : SupervisorState :=
  storeNewClient (teardownExisting st sessionId) sessionId userId socketId retryCount now

/-! ### The `connection === 'close'` handler -/

/-- One `sessionRepository.update(sessionId, …)` payload: each field is
`none` when the update object does not mention the column, and
`some none` models an explicit SQL `NULL` write. -/
structure SessionUpdate where
  status : Option SessionStatus
  sessionData : Option (Option String)
  phoneNumber : Option (Option String)
  deriving DecidableEq, Repr

/-- A reconnect scheduled through `setTimeout`: the computed delay and the
retry count passed to the next `initializeClient` attempt. -/
structure ScheduledReconnect where
  delayMs : Int
  nextRetryCount : Nat
  deriving DecidableEq, Repr

/-- Effects of the `connection === 'close'` branch of the
`connection.update` handler (lines 290–346). -/
structure CloseEffects where
  statusCode : Nat
  category : ErrorCategory
  healthCheckStopped : Bool
  clientRemoved : Bool
  update : SessionUpdate
  reconnect : Option ScheduledReconnect
  notify : String
  deriving Repr

/-- The `connection === 'close'` handler of `initializeClient`
(lines 290–346).  `rawStatusCode` is `(lastDisconnect?.error as
Boom)?.output?.statusCode` (absent when there is no error object),
`currentRetryCount` is `currentClient?.retryCount || 0`, and `r` is the
`Math.random()` sample consumed by `getRetryDelay`. -/
def handleConnectionClose (rawStatusCode : Option Nat) (currentRetryCount : Nat)
    (r : ℚ) : CloseEffects :=
  let statusCode := jsOrDefault rawStatusCode 500
  let errorCategory := categorizeError statusCode
  if errorCategory = ErrorCategory.loggedOut then
    { statusCode := statusCode, category := errorCategory,
      healthCheckStopped := true, clientRemoved := true,
      update := { status := some SessionStatus.disconnected,
                  sessionData := some none, phoneNumber := none },
      reconnect := none, notify := "disconnected" }
  else if errorCategory = ErrorCategory.fatal then
    { statusCode := statusCode, category := errorCategory,
      healthCheckStopped := true, clientRemoved := true,
      update := { status := some SessionStatus.failed,
                  sessionData := none, phoneNumber := none },
      reconnect := none, notify := "error" }
  else if currentRetryCount < MAX_RETRIES then
    let delay :=
      if errorCategory = ErrorCategory.rateLimited then
        2 * getRetryDelay r currentRetryCount
      else getRetryDelay r currentRetryCount
    { statusCode := statusCode, category := errorCategory,
      healthCheckStopped := true, clientRemoved := true,
      update := { status := some SessionStatus.pending,
                  sessionData := none, phoneNumber := none },
      reconnect := some ⟨delay, currentRetryCount + 1⟩, notify := "reconnecting" }
  else
    { statusCode := statusCode, category := errorCategory,
      healthCheckStopped := true, clientRemoved := true,
      update := { status := some SessionStatus.failed,
                  sessionData := none, phoneNumber := none },
      reconnect := none, notify := "error" }

/-! ### The outer try/catch of `initializeClient` -/

/-- Outcome of one `initializeClient` call as seen by its caller, for the
outer `try { … } catch (error)` (lines 246 and 428–437). -/
structure InitOutcome where
  update : Option SessionUpdate
  notifiedError : Option String
  result : Except String Unit
  deriving Repr

/-- The outer `try`/`catch` of `initializeClient`: `setup` is the body of
the `try` block (auth-state load, version fetch, socket construction,
handler registration) — when it throws before any event is observed, the
session is marked `failed`, the error is forwarded to the status callback,
and the same error is re-thrown. -/
def initializeClientCatch (setup : Except String Unit) : InitOutcome :=
  match setup with
  | Except.ok _ => { update := none, notifiedError := none, result := Except.ok () }
  | Except.error e =>
      { update := some { status := some SessionStatus.failed,
                         sessionData := none, phoneNumber := none },
        notifiedError := some e,
        result := Except.error e }

/-! ### `sendMessage` -/

/-- One `message_logs` row as manipulated by `sendMessage`. -/
structure MsgLog where
  userId : Nat
  sessionId : Nat
  recipient : List Char
  message : String
  status : MessageStatus
  error : Option String
  sentAt : Option Int
  deriving DecidableEq, Repr

/-- Observable steps of a `sendMessage` call, in program order:
`insertLog` is the initial `messageLogRepository.save` of the pending row,
`netSend` the `socket.sendMessage(formattedNumber, …)` attempt, and
`saveLog` the final `messageLogRepository.save` of the updated row. -/
inductive LogEvent
  | insertLog (log : MsgLog)
  | netSend (address : List Char)
  | saveLog (log : MsgLog)
  deriving DecidableEq, Repr

/-- Result of the awaited `socket.sendMessage` network call. -/
inductive SendOutcome
  | ok
  | err (msg : String)
  deriving DecidableEq, Repr

/-- `sendMessage` of `whatsapp.service.ts` (lines 474–562): look up the
active client, consult the rate limiter, normalize the recipient, insert a
pending log row, attempt the network send (whose result is the `outcome`
parameter), and finish the row as `sent`/`failed` — send-time errors are
caught, recorded on the row, and not re-thrown. -/
def sendMessage (clients : List (Nat × ActiveClient)) (rateEntry : Option RateLimitEntry)
    (now : Int) (sessionId userId : Nat) (recipient : List Char) (message : String)
    (outcome : SendOutcome) : Except String (MsgLog × List LogEvent) :=
  match mapGet clients sessionId with
  | none => Except.error "Session not active"
  | some _ =>
      let rateCheck := (checkRateLimit now rateEntry).1
      if rateCheck.allowed = false then
        Except.error "Rate limit exceeded"
      else
        let formattedNumber := formatRecipient recipient
        let log : MsgLog :=
          ⟨userId, sessionId, recipient, message, MessageStatus.pending, none, none⟩
        match outcome with
        | SendOutcome.ok =>
            let final := { log with status := MessageStatus.sent, sentAt := some now }
            Except.ok (final,
              [LogEvent.insertLog log, LogEvent.netSend formattedNumber,
               LogEvent.saveLog final])
        | SendOutcome.err m =>
            let final := { log with status := MessageStatus.failed, error := some m }
            Except.ok (final,
              [LogEvent.insertLog log, LogEvent.netSend formattedNumber,
               LogEvent.saveLog final])

/-! ### Auto-restore on process start (`onModuleInit`) -/

/-- One `whatsapp_sessions` row, restricted to the fields `onModuleInit`
reads. -/
structure Session where
  id : Nat
  userId : Nat
  status : SessionStatus
  sessionData : Option String
  deriving DecidableEq, Repr

/-- Effects of a restore pass: session ids passed to `initializeClient`
(in loop order), the awaited stagger delays, and the repository updates
issued. -/
structure RestoreEffects where
  initialized : List Nat
  staggerDelays : List Int
  updates : List (Nat × SessionUpdate)
  deriving DecidableEq, Repr

/-- The `for (const session of sessionsToRestore)` loop of `onModuleInit`
in `whatsapp.service.ts` (lines 84–94): sessions with a non-null
`sessionData` are re-initialized (not awaited) followed by a 2000 ms
stagger delay; sessions without `sessionData` are skipped. -/
def restoreLoop : List Session → RestoreEffects
  | [] => ⟨[], [], []⟩
  | s :: rest =>
      if s.sessionData.isSome then
        let eff := restoreLoop rest
        ⟨s.id :: eff.initialized, 2000 :: eff.staggerDelays, eff.updates⟩
      else restoreLoop rest

/-- `onModuleInit` of `whatsapp.service.ts` (lines 75–100): query the
sessions persisted as `connected` and run the restore loop over them. -/
def onModuleInitRestore (sessions : List Session) : RestoreEffects :=
  restoreLoop (sessions.filter (fun s => s.status = SessionStatus.connected))

/-- The repository update written by the legacy restore loop for a session
without local auth data: `{ status: SessionStatus.DISCONNECTED }`. -/
def disconnectedMark : SessionUpdate :=
  { status := some SessionStatus.disconnected, sessionData := none, phoneNumber := none }

/-- The restore loop of the legacy whatsapp-web.js service
(`src/unnamed/part_003`, lines 74–88): `hasAuthDir` models the
`fs.existsSync(sessionPath)` check for the session's auth folder; sessions
with auth data are re-initialized followed by a 3000 ms delay, sessions
without are marked `disconnected`. -/
def restoreLegacyLoop (hasAuthDir : Nat → Bool) : List Session → RestoreEffects
  | [] => ⟨[], [], []⟩
  | s :: rest =>
      let eff := restoreLegacyLoop hasAuthDir rest
      if hasAuthDir s.id then
        ⟨s.id :: eff.initialized, 3000 :: eff.staggerDelays, eff.updates⟩
      else
        ⟨eff.initialized, eff.staggerDelays, (s.id, disconnectedMark) :: eff.updates⟩

/-- `onModuleInit` of the legacy whatsapp-web.js service
(`src/unnamed/part_003`, lines 63–92). -/
def onModuleInitRestoreLegacy (sessions : List Session) (hasAuthDir : Nat → Bool) :
    RestoreEffects :=
  restoreLegacyLoop hasAuthDir
    (sessions.filter (fun s => s.status = SessionStatus.connected))

/-! ### Lemmas about the `Map` model -/

theorem mapGet_eq_none_iff (m : List (Nat × α)) (k : Nat) :
    mapGet m k = none ↔ ∀ p ∈ m, ¬ p.1 = k := by
  simp [mapGet, List.find?_eq_none]

theorem countKey_eq_zero_iff (m : List (Nat × α)) (k : Nat) :
    countKey m k = 0 ↔ ∀ p ∈ m, ¬ p.1 = k := by
  simp [countKey, List.countP_eq_zero]

theorem mapGet_mapDelete_self (m : List (Nat × α)) (k : Nat) :
    mapGet (mapDelete m k) k = none := by
  rw [mapGet_eq_none_iff]
  intro p hp
  have := List.mem_filter.1 hp
  simpa using this.2

theorem countKey_mapDelete_self (m : List (Nat × α)) (k : Nat) :
    countKey (mapDelete m k) k = 0 := by
  rw [countKey_eq_zero_iff]
  intro p hp
  have := List.mem_filter.1 hp
  simpa using this.2

theorem countKey_mapDelete_ne (m : List (Nat × α)) (k j : Nat) (h : j ≠ k) :
    countKey (mapDelete m j) k = countKey m k := by
  unfold countKey mapDelete
  rw [List.countP_filter]
  apply List.countP_congr
  intro p _
  by_cases hp : p.1 = k
  · simp [hp, Ne.symm h]
  · simp [hp]

theorem countKey_append_singleton (m : List (Nat × α)) (k : Nat) (v : α) :
    countKey (m ++ [(k, v)]) k = countKey m k + 1 := by
  simp [countKey, List.countP_append]

theorem countKey_append_singleton_ne (m : List (Nat × α)) (k j : Nat) (v : α)
    (h : j ≠ k) : countKey (m ++ [(j, v)]) k = countKey m k := by
  simp [countKey, List.countP_append, h]

theorem mapGet_append_singleton_self (m : List (Nat × α)) (k : Nat) (v : α)
    (h : mapGet m k = none) : mapGet (m ++ [(k, v)]) k = some v := by
  have hf : m.find? (fun p => p.1 == k) = none := by
    unfold mapGet at h
    cases hf : m.find? (fun p => p.1 == k) with
    | none => rfl
    | some p => rw [hf] at h; simp at h
  simp [mapGet, List.find?_append, hf, List.find?]

theorem mapHas_eq_true_of_mapGet_some (m : List (Nat × α)) (k : Nat) (v : α)
    (h : mapGet m k = some v) : mapHas m k = true := by
  unfold mapGet at h
  unfold mapHas
  cases hf : m.find? (fun p => p.1 == k) with
  | none => rw [hf] at h; simp at h
  | some p => simp

theorem mapHas_eq_false_of_mapGet_none (m : List (Nat × α)) (k : Nat)
    (h : mapGet m k = none) : mapHas m k = false := by
  unfold mapGet at h
  unfold mapHas
  cases hf : m.find? (fun p => p.1 == k) with
  | none => simp
  | some p => rw [hf] at h; simp at h

theorem mapSet_of_not_has (m : List (Nat × α)) (k : Nat) (v : α)
    (h : mapHas m k = false) : mapSet m k v = m ++ [(k, v)] := by
  simp [mapSet, h]

theorem countKey_mapSet_replace (m : List (Nat × α)) (k j : Nat) (v : α) :
    countKey (m.map (fun p => if p.1 == k then (k, v) else p)) j = countKey m j := by
  unfold countKey
  rw [List.countP_map]
  apply List.countP_congr
  intro p _
  by_cases hp : p.1 = k
  · by_cases hj : k = j <;> simp [Function.comp, hp, hj]
  · simp [Function.comp, hp]

/-! ### Lemmas about `stopHealthCheck` and `teardownExisting` -/

theorem stopHealthCheck_countKey (st : SupervisorState) (sessionId j : Nat) :
    countKey (stopHealthCheck st sessionId).clients j = countKey st.clients j := by
  unfold stopHealthCheck
  cases hget : mapGet st.clients sessionId with
  | none => rfl
  | some client =>
      dsimp only
      cases hhc : client.healthCheckInterval with
      | none => rfl
      | some timer =>
          dsimp only
          have hhas := mapHas_eq_true_of_mapGet_some _ _ _ hget
          simp only [mapSet, hhas, if_true]
          exact countKey_mapSet_replace st.clients sessionId j _

theorem stopHealthCheck_endedSockets (st : SupervisorState) (sessionId : Nat) :
    (stopHealthCheck st sessionId).endedSockets = st.endedSockets := by
  unfold stopHealthCheck
  cases hget : mapGet st.clients sessionId with
  | none => rfl
  | some client =>
      dsimp only
      cases hhc : client.healthCheckInterval with
      | none => rfl
      | some timer => rfl

theorem stopHealthCheck_clearedTimers (st : SupervisorState) (sessionId : Nat)
    (client : ActiveClient) (timer : Nat)
    (hget : mapGet st.clients sessionId = some client)
    (hhc : client.healthCheckInterval = some timer) :
    timer ∈ (stopHealthCheck st sessionId).clearedTimers := by
  unfold stopHealthCheck
  rw [hget]
  dsimp only
  rw [hhc]
  exact List.mem_cons_self _ _

theorem teardownExisting_mapGet (st : SupervisorState) (sessionId : Nat) :
    mapGet (teardownExisting st sessionId).clients sessionId = none := by
  unfold teardownExisting
  by_cases h : mapHas st.clients sessionId = true
  · simp only [h, if_true]
    cases mapGet st.clients sessionId with
    | none => exact mapGet_mapDelete_self _ _
    | some existing => exact mapGet_mapDelete_self _ _
  · simp only [Bool.not_eq_true] at h
    simp only [h, Bool.false_eq_true, if_false]
    unfold mapHas at h
    unfold mapGet
    cases hf : st.clients.find? (fun p => p.1 == sessionId) with
    | none => rfl
    | some p => rw [hf] at h; simp at h

theorem teardownExisting_countKey_self (st : SupervisorState) (sessionId : Nat) :
    countKey (teardownExisting st sessionId).clients sessionId = 0 := by
  unfold teardownExisting
  by_cases h : mapHas st.clients sessionId = true
  · simp only [h, if_true]
    cases mapGet st.clients sessionId with
    | none => exact countKey_mapDelete_self _ _
    | some existing => exact countKey_mapDelete_self _ _
  · simp only [Bool.not_eq_true] at h
    simp only [h, Bool.false_eq_true, if_false]
    rw [countKey_eq_zero_iff]
    intro p hp
    intro hk
    unfold mapHas at h
    have hsome : (st.clients.find? (fun q => q.1 == sessionId)).isSome = true := by
      rw [List.find?_isSome]
      exact ⟨p, hp, by simpa using hk⟩
    rw [h] at hsome
    simp at hsome

theorem teardownExisting_countKey_ne (st : SupervisorState) (sessionId j : Nat)
    (h : j ≠ sessionId) :
    countKey (teardownExisting st sessionId).clients j = countKey st.clients j := by
  unfold teardownExisting
  by_cases hhas : mapHas st.clients sessionId = true
  · simp only [hhas, if_true]
    cases hget : mapGet st.clients sessionId with
    | none =>
        exact countKey_mapDelete_ne _ _ _ (Ne.symm h)
    | some existing =>
        rw [countKey_mapDelete_ne _ _ _ (Ne.symm h)]
        exact stopHealthCheck_countKey st sessionId j
  · simp only [Bool.not_eq_true] at hhas
    simp only [hhas, Bool.false_eq_true, if_false]

theorem teardownExisting_effects (st : SupervisorState) (sessionId : Nat)
    (old : ActiveClient) (hget : mapGet st.clients sessionId = some old) :
    old.socketId ∈ (teardownExisting st sessionId).endedSockets ∧
    (∀ t, old.healthCheckInterval = some t →
        t ∈ (teardownExisting st sessionId).clearedTimers) := by
  have hhas := mapHas_eq_true_of_mapGet_some _ _ _ hget
  unfold teardownExisting
  rw [hhas, if_pos rfl, hget]
  dsimp only
  constructor
  · exact List.mem_cons_self _ _
  · intro t ht
    exact stopHealthCheck_clearedTimers st sessionId old t hget ht

theorem mapHas_teardownExisting_self (st : SupervisorState) (sessionId : Nat) :
    mapHas (teardownExisting st sessionId).clients sessionId = false :=
  mapHas_eq_false_of_mapGet_none _ _ (teardownExisting_mapGet st sessionId)

/-- C1: at most one Active Connection is registered per session id.
`initializeClient` for a session id that already has a connection first
tears it down — its health-check timer is cleared and its socket ended —
and the map entry is removed before the new client is stored; afterwards
the clients map holds exactly one entry for the session id, entries of
other session ids are untouched, so repeated initialization never leaks a
connection. -/
theorem initializeClient_single_connection (st : SupervisorState)
    (sessionId userId socketId retryCount : Nat) (now : Int) :
    countKey (initRegister st sessionId userId socketId retryCount now).clients
        sessionId = 1 ∧
    mapGet (initRegister st sessionId userId socketId retryCount now).clients
        sessionId = some ⟨socketId, sessionId, userId, retryCount, now, none⟩ ∧
    mapGet (teardownExisting st sessionId).clients sessionId = none ∧
    (∀ old, mapGet st.clients sessionId = some old →
        old.socketId ∈ (teardownExisting st sessionId).endedSockets ∧
        ∀ t, old.healthCheckInterval = some t →
          t ∈ (teardownExisting st sessionId).clearedTimers) ∧
    (∀ k, k ≠ sessionId →
        countKey (initRegister st sessionId userId socketId retryCount now).clients k
          = countKey st.clients k) := by
  have hnone := teardownExisting_mapGet st sessionId
  have hhas := mapHas_teardownExisting_self st sessionId
  have hset : (initRegister st sessionId userId socketId retryCount now).clients
      = (teardownExisting st sessionId).clients
        ++ [(sessionId, ⟨socketId, sessionId, userId, retryCount, now, none⟩)] := by
    unfold initRegister storeNewClient
    dsimp only
    exact mapSet_of_not_has _ _ _ hhas
  refine ⟨?_, ?_, hnone, ?_, ?_⟩
  · rw [hset, countKey_append_singleton,
      teardownExisting_countKey_self st sessionId]
  · rw [hset]
    exact mapGet_append_singleton_self _ _ _ hnone
  · intro old hget
    exact teardownExisting_effects st sessionId old hget
  · intro k hk
    rw [hset, countKey_append_singleton_ne _ _ _ _ (Ne.symm hk)]
    exact teardownExisting_countKey_ne st sessionId k hk

/-- Concrete run of C1: a supervisor holding one connection for session 1
(socket 42, health-check timer 99) is re-initialized for session 1 with
socket 43; the new map holds exactly one entry for session 1, socket 42 was
ended and timer 99 cleared before the store, and session 2 is untouched. -/
theorem initializeClient_single_connection_witness :
    countKey (initRegister ⟨[(1, ⟨42, 1, 7, 0, 0, some 99⟩)], [], []⟩
        1 7 43 0 5).clients 1 = 1 ∧
    42 ∈ (teardownExisting ⟨[(1, ⟨42, 1, 7, 0, 0, some 99⟩)], [], []⟩ 1).endedSockets ∧
    99 ∈ (teardownExisting ⟨[(1, ⟨42, 1, 7, 0, 0, some 99⟩)], [], []⟩ 1).clearedTimers ∧
    countKey (initRegister ⟨[(1, ⟨42, 1, 7, 0, 0, some 99⟩)], [], []⟩
        1 7 43 0 5).clients 2
      = countKey ([(1, ⟨42, 1, 7, 0, 0, some 99⟩)] : List (Nat × ActiveClient)) 2 := by
  have h := initializeClient_single_connection
    (⟨[(1, ⟨42, 1, 7, 0, 0, some 99⟩)], [], []⟩ : SupervisorState) 1 7 43 0 5
  have heff := h.2.2.2.1 ⟨42, 1, 7, 0, 0, some 99⟩ rfl
  exact ⟨h.1, heff.1, heff.2 99 rfl, h.2.2.2.2 2 (by decide)⟩

/-! ### Close-handler claims -/

theorem categorizeError_eq_loggedOut_iff (c : Nat) :
    categorizeError c = ErrorCategory.loggedOut ↔ c = 401 := by
  unfold categorizeError DisconnectReason.loggedOut
  by_cases h : c = 401
  · simp [h]
  · simp only [h, or_self, if_false]
    split_ifs <;> simp

/-- C2: a connection close categorized `LoggedOut` persists status
`disconnected`, nulls the stored `sessionData` blob, removes the in-memory
connection (with its health check stopped), and schedules no reconnect. -/
theorem loggedOut_close_purges_and_stops (rawCode : Option Nat) (retry : Nat) (r : ℚ)
    (h : categorizeError (jsOrDefault rawCode 500) = ErrorCategory.loggedOut) :
    (handleConnectionClose rawCode retry r).update.status
        = some SessionStatus.disconnected ∧
    (handleConnectionClose rawCode retry r).update.sessionData = some none ∧
    (handleConnectionClose rawCode retry r).reconnect = none ∧
    (handleConnectionClose rawCode retry r).clientRemoved = true ∧
    (handleConnectionClose rawCode retry r).healthCheckStopped = true ∧
    (handleConnectionClose rawCode retry r).notify = "disconnected" := by
  simp [handleConnectionClose, h]

/-- Concrete run of C2: a close with status code 401 (the logged-out code)
at retry count 0. -/
theorem loggedOut_close_purges_and_stops_witness :
    (handleConnectionClose (some 401) 0 0).update.status
        = some SessionStatus.disconnected ∧
    (handleConnectionClose (some 401) 0 0).update.sessionData = some none ∧
    (handleConnectionClose (some 401) 0 0).reconnect = none ∧
    (handleConnectionClose (some 401) 0 0).clientRemoved = true ∧
    (handleConnectionClose (some 401) 0 0).healthCheckStopped = true ∧
    (handleConnectionClose (some 401) 0 0).notify = "disconnected" :=
  loggedOut_close_purges_and_stops (some 401) 0 0 (by decide)

theorem handleConnectionClose_category (rawCode : Option Nat) (retry : Nat) (r : ℚ) :
    (handleConnectionClose rawCode retry r).category
      = categorizeError (jsOrDefault rawCode 500) := by
  simp only [handleConnectionClose]
  split_ifs <;> rfl

theorem handleConnectionClose_sessionData (rawCode : Option Nat) (retry : Nat) (r : ℚ) :
    (handleConnectionClose rawCode retry r).update.sessionData
      = (if categorizeError (jsOrDefault rawCode 500) = ErrorCategory.loggedOut
         then some none else none) := by
  simp only [handleConnectionClose]
  split_ifs <;> rfl

theorem handleConnectionClose_phoneNumber (rawCode : Option Nat) (retry : Nat) (r : ℚ) :
    (handleConnectionClose rawCode retry r).update.phoneNumber = none := by
  simp only [handleConnectionClose]
  split_ifs <;> rfl

/-- C10: in the close handler the `sessionData` column is written only in
the `LoggedOut` branch (every other branch's repository update carries
neither `sessionData` nor `phoneNumber`), a close whose error has no status
code defaults to 500 and is categorized `Temporary`, and credentials are
purged only when the effective code is the explicit logged-out/401 code. -/
theorem close_handler_sessionData_frame (rawCode : Option Nat) (retry : Nat) (r : ℚ) :
    ((handleConnectionClose rawCode retry r).update.sessionData ≠ none →
        (handleConnectionClose rawCode retry r).category = ErrorCategory.loggedOut ∧
        jsOrDefault rawCode 500 = 401) ∧
    ((handleConnectionClose rawCode retry r).category ≠ ErrorCategory.loggedOut →
        (handleConnectionClose rawCode retry r).update.sessionData = none ∧
        (handleConnectionClose rawCode retry r).update.phoneNumber = none) ∧
    jsOrDefault none 500 = 500 ∧
    categorizeError 500 = ErrorCategory.temporary ∧
    (rawCode = none →
        (handleConnectionClose rawCode retry r).category = ErrorCategory.temporary) := by
  refine ⟨?_, ?_, rfl, by decide, ?_⟩
  · intro hsd
    rw [handleConnectionClose_sessionData] at hsd
    rw [handleConnectionClose_category]
    by_cases h : categorizeError (jsOrDefault rawCode 500) = ErrorCategory.loggedOut
    · exact ⟨h, (categorizeError_eq_loggedOut_iff _).1 h⟩
    · rw [if_neg h] at hsd
      exact absurd rfl hsd
  · intro hcat
    rw [handleConnectionClose_category] at hcat
    rw [handleConnectionClose_sessionData, if_neg hcat]
    exact ⟨rfl, handleConnectionClose_phoneNumber rawCode retry r⟩
  · intro hrc
    subst hrc
    rw [handleConnectionClose_category]
    decide

/-- Concrete runs of C10: code 401 purges and is the logged-out code; a
fatal 400 close updates neither `sessionData` nor `phoneNumber`; a close
with no status code is categorized `Temporary`. -/
theorem close_handler_sessionData_frame_witness :
    ((handleConnectionClose (some 401) 0 0).category = ErrorCategory.loggedOut ∧
      jsOrDefault (some 401) 500 = 401) ∧
    ((handleConnectionClose (some 400) 0 0).update.sessionData = none ∧
      (handleConnectionClose (some 400) 0 0).update.phoneNumber = none) ∧
    (handleConnectionClose none 3 0).category = ErrorCategory.temporary :=
  ⟨(close_handler_sessionData_frame (some 401) 0 0).1 (by decide),
   (close_handler_sessionData_frame (some 400) 0 0).2.1 (by decide),
   (close_handler_sessionData_frame none 3 0).2.2.2.2 rfl⟩

/-- C8: when the transport connect attempt inside `initializeClient` throws
before any event is observed, the session is persisted as `failed` and the
same error is re-raised to the caller. -/
theorem initializeClient_failure_marks_failed_and_rethrows (e : String) :
    initializeClientCatch (Except.error e)
      = { update := some { status := some SessionStatus.failed,
                           sessionData := none, phoneNumber := none },
          notifiedError := some e,
          result := Except.error e } := rfl

/-! ### Rate limiter claim -/

set_option maxRecDepth 4000 in
/-- C3: `checkRateLimit` is a fixed window with max 30 and window 60 s —
no entry or a time past the reset time resets to `{count:1, resetAt:
now+60000}` and allows; below the max the count is incremented and the call
allowed; at the max the call is denied with wait time `resetAt - now`.
Concretely, after 30 calls at time 1000 the 31st call is denied with a
60000 ms wait, and a call after the window (at 62000) is allowed with the
counter reset to 1. -/
theorem checkRateLimit_fixed_window :
    (∀ now : Int, checkRateLimit now none
        = (⟨true, none⟩, ⟨1, now + RATE_LIMIT_WINDOW⟩)) ∧
    (∀ (now : Int) (e : RateLimitEntry), now > e.resetTime →
        checkRateLimit now (some e)
          = (⟨true, none⟩, ⟨1, now + RATE_LIMIT_WINDOW⟩)) ∧
    (∀ (now : Int) (e : RateLimitEntry), ¬ now > e.resetTime →
        e.count < RATE_LIMIT_MAX →
        checkRateLimit now (some e) = (⟨true, none⟩, ⟨e.count + 1, e.resetTime⟩)) ∧
    (∀ (now : Int) (e : RateLimitEntry), ¬ now > e.resetTime →
        e.count ≥ RATE_LIMIT_MAX →
        checkRateLimit now (some e) = (⟨false, some (e.resetTime - now)⟩, e)) ∧
    (checkRateLimit 1000 (rateLimitAfter 1000 none 30)).1
        = ⟨false, some 60000⟩ ∧
    checkRateLimit 62000 (rateLimitAfter 1000 none 30)
        = (⟨true, none⟩, ⟨1, 122000⟩) := by
  refine ⟨fun now => rfl, ?_, ?_, ?_, by decide, by decide⟩
  · intro now e h
    simp only [checkRateLimit, if_pos h]
  · intro now e h hcount
    simp only [checkRateLimit, if_neg h, if_neg (by omega : ¬ e.count ≥ RATE_LIMIT_MAX)]
  · intro now e h hcount
    simp only [checkRateLimit, if_neg h, if_pos hcount]

/-- Concrete runs of C3: a stale entry is reset; a below-max entry is
incremented; a full entry is denied with the remaining wait time. -/
theorem checkRateLimit_fixed_window_witness :
    checkRateLimit 5 (some ⟨3, 4⟩) = (⟨true, none⟩, ⟨1, 60005⟩) ∧
    checkRateLimit 5 (some ⟨3, 10⟩) = (⟨true, none⟩, ⟨4, 10⟩) ∧
    checkRateLimit 5 (some ⟨30, 10⟩) = (⟨false, some 5⟩, ⟨30, 10⟩) :=
  ⟨checkRateLimit_fixed_window.2.1 5 ⟨3, 4⟩ (by decide),
   checkRateLimit_fixed_window.2.2.1 5 ⟨3, 10⟩ (by decide) (by decide),
   checkRateLimit_fixed_window.2.2.2.1 5 ⟨30, 10⟩ (by decide) (by decide)⟩

/-! ### Backoff claims -/

theorem preJitterDelay_nonneg (n : Nat) : 0 ≤ preJitterDelay n := by
  unfold preJitterDelay BASE_RETRY_DELAY MAX_RETRY_DELAY
  positivity

theorem preJitterDelay_le_cap (n : Nat) : preJitterDelay n ≤ MAX_RETRY_DELAY :=
  min_le_right _ _

theorem preJitterDelay_ge_base (n : Nat) : (2000 : ℚ) ≤ preJitterDelay n := by
  unfold preJitterDelay BASE_RETRY_DELAY MAX_RETRY_DELAY
  have h1 : (1:ℚ) ≤ 2 ^ n := one_le_pow₀ (by norm_num)
  refine le_min (by nlinarith) (by norm_num)

theorem preJitterDelay_mono {m n : Nat} (hmn : m ≤ n) :
    preJitterDelay m ≤ preJitterDelay n := by
  unfold preJitterDelay BASE_RETRY_DELAY
  exact min_le_min
    (mul_le_mul_of_nonneg_left (pow_le_pow_right₀ (by norm_num) hmn) (by norm_num))
    le_rfl

/-- C4 counterexample: the code caps the delay *before* adding jitter, so a
positive jitter sample pushes the returned delay over the cap.  At retry
count 8 the pre-jitter delay is exactly the 300000 ms cap, and the jitter
sample 0.9 (a legal `Math.random()` value) yields 324000 ms > cap. -/
theorem getRetryDelay_exceeds_cap :
    (0:ℚ) ≤ 9/10 ∧ (9/10:ℚ) < 1 ∧
    preJitterDelay 8 = MAX_RETRY_DELAY ∧
    getRetryDelay (9/10) 8 = 324000 ∧
    ¬ ((getRetryDelay (9/10) 8 : ℚ) ≤ MAX_RETRY_DELAY) := by
  have hv : getRetryDelay (9/10) 8 = 324000 := by
    norm_num [getRetryDelay, preJitterDelay, BASE_RETRY_DELAY, MAX_RETRY_DELAY]
  refine ⟨by norm_num, by norm_num, ?_, hv, ?_⟩
  · norm_num [preJitterDelay, BASE_RETRY_DELAY, MAX_RETRY_DELAY]
  · rw [hv]
    norm_num [MAX_RETRY_DELAY]

/-- C4 (amended): the backoff delay is non-decreasing in the retry count
when jitter is ignored, and the *pre-jitter* delay never exceeds the
5-minute cap; the returned (jittered) delay may exceed the cap by the
positive jitter but is always at most 110 % of the cap. -/
theorem getRetryDelay_monotone_and_bounded (m n : Nat) (hmn : m ≤ n) (r : ℚ)
    (h0 : 0 ≤ r) (h1 : r ≤ 1) :
    preJitterDelay m ≤ preJitterDelay n ∧
    preJitterDelay n ≤ MAX_RETRY_DELAY ∧
    (getRetryDelay r n : ℚ) ≤ MAX_RETRY_DELAY * (11/10) := by
  refine ⟨preJitterDelay_mono hmn, preJitterDelay_le_cap n, ?_⟩
  have hfl : (getRetryDelay r n : ℚ)
      ≤ preJitterDelay n + preJitterDelay n * (1/5) * (r - 1/2) := by
    simp only [getRetryDelay]
    exact Int.floor_le _
  have hd0 := preJitterDelay_nonneg n
  have hdc := preJitterDelay_le_cap n
  unfold MAX_RETRY_DELAY at hdc ⊢
  nlinarith [mul_le_mul_of_nonneg_left h1 hd0, mul_nonneg hd0 h0]

/-- Concrete run of C4 (amended) at retry counts 0 ≤ 1 and the centered
jitter sample. -/
theorem getRetryDelay_monotone_and_bounded_witness :
    preJitterDelay 0 ≤ preJitterDelay 1 ∧
    preJitterDelay 1 ≤ MAX_RETRY_DELAY ∧
    (getRetryDelay (1/2) 1 : ℚ) ≤ MAX_RETRY_DELAY * (11/10) :=
  getRetryDelay_monotone_and_bounded 0 1 (by norm_num) (1/2) (by norm_num) (by norm_num)

/-- C5: the backoff formula is `floor(min(base·2^n, cap) + jitter)` with
base 2000 ms and cap 300000 ms, the jittered delay stays within ±20 % of
the pre-jitter delay, and for a `Temporary` close at retry count 0 the
scheduled reconnect delay equals `getRetryDelay r 0`, which lies in
`[base·0.8, base·1.2] = [1600, 2400]`, with retry count 1 passed to the
next attempt. -/
theorem getRetryDelay_formula_and_temporary_scenario (r : ℚ)
    (h0 : 0 ≤ r) (h1 : r ≤ 1) :
    (∀ n, getRetryDelay r n
        = ⌊preJitterDelay n + preJitterDelay n * (1/5) * (r - 1/2)⌋) ∧
    (∀ n, |(getRetryDelay r n : ℚ) - preJitterDelay n| ≤ preJitterDelay n * (1/5)) ∧
    BASE_RETRY_DELAY = 2000 ∧ MAX_RETRY_DELAY = 300000 ∧
    (∀ rawCode, categorizeError (jsOrDefault rawCode 500) = ErrorCategory.temporary →
        (handleConnectionClose rawCode 0 r).reconnect
          = some ⟨getRetryDelay r 0, 1⟩) ∧
    (1600 ≤ getRetryDelay r 0 ∧ getRetryDelay r 0 ≤ 2400) := by
  have hval : getRetryDelay r 0 = ⌊(2000:ℚ) + 2000 * (1/5) * (r - 1/2)⌋ := by
    norm_num [getRetryDelay, preJitterDelay, BASE_RETRY_DELAY, MAX_RETRY_DELAY]
  refine ⟨fun n => rfl, ?_, rfl, rfl, ?_, ?_, ?_⟩
  · intro n
    have hd2000 := preJitterDelay_ge_base n
    have hup : (getRetryDelay r n : ℚ)
        ≤ preJitterDelay n + preJitterDelay n * (1/5) * (r - 1/2) := by
      simp only [getRetryDelay]
      exact Int.floor_le _
    have hlo : preJitterDelay n + preJitterDelay n * (1/5) * (r - 1/2) - 1
        < (getRetryDelay r n : ℚ) := by
      simp only [getRetryDelay]
      exact Int.sub_one_lt_floor _
    rw [abs_le]
    constructor <;>
      nlinarith [mul_le_mul_of_nonneg_left h1 (by linarith : (0:ℚ) ≤ preJitterDelay n),
        mul_nonneg (by linarith : (0:ℚ) ≤ preJitterDelay n) h0]
  · intro rawCode hcat
    simp only [handleConnectionClose]
    rw [hcat]
    simp [MAX_RETRIES]
  · rw [hval]
    refine Int.le_floor.2 ?_
    push_cast
    nlinarith
  · rw [hval]
    have hfl := Int.floor_le ((2000:ℚ) + 2000 * (1/5) * (r - 1/2))
    have hx : ((2000:ℚ) + 2000 * (1/5) * (r - 1/2)) ≤ 2400 := by nlinarith
    exact_mod_cast hfl.trans hx

/-- Concrete runs of C5 at the centered jitter sample, including a
`Temporary` (code 515) close at retry count 0. -/
theorem getRetryDelay_formula_and_temporary_scenario_witness :
    getRetryDelay (1/2) 2
        = ⌊preJitterDelay 2 + preJitterDelay 2 * (1/5) * ((1/2 : ℚ) - 1/2)⌋ ∧
    |(getRetryDelay (1/2) 3 : ℚ) - preJitterDelay 3| ≤ preJitterDelay 3 * (1/5) ∧
    (handleConnectionClose (some 515) 0 (1/2)).reconnect
        = some ⟨getRetryDelay (1/2) 0, 1⟩ ∧
    (1600 ≤ getRetryDelay (1/2) 0 ∧ getRetryDelay (1/2) 0 ≤ 2400) := by
  have h := getRetryDelay_formula_and_temporary_scenario (1/2)
    (by norm_num) (by norm_num)
  exact ⟨h.1 2, h.2.1 3, h.2.2.2.2.1 (some 515) (by decide),
    h.2.2.2.2.2.1, h.2.2.2.2.2.2⟩

/-! ### Recipient normalization claim -/

theorem stripNonDigits_contains_at (s : List Char) :
    (stripNonDigits s).contains '@' = false := by
  induction s with
  | nil => rfl
  | cons c rest ih =>
      unfold stripNonDigits at ih ⊢
      by_cases h : isDigitChar c = true
      · have hne : ('@' == c) = false := by
          refine beq_eq_false_iff_ne.2 ?_
          intro heq
          rw [← heq] at h
          exact absurd h (by decide)
        rw [List.filter_cons_of_pos h, List.contains_cons, hne, ih]
        rfl
      · rw [List.filter_cons_of_neg (by simpa using h)]
        exact ih

/-- C6: `sendMessage`'s recipient normalization strips all non-digit
characters, prepends the default country code `'91'` when exactly 10 digits
remain, and always appends the `'@s.whatsapp.net'` transport suffix (a
digits-only string never contains `'@'`).  In particular `"+919876543210"`
and `"919876543210"` normalize to the same canonical address, and
`"9876543210"` normalizes to that same address. -/
theorem formatRecipient_normalization :
    (∀ s : List Char,
        formatRecipient s
          = (if (stripNonDigits s).length = 10
             then '9' :: '1' :: stripNonDigits s
             else stripNonDigits s) ++ "@s.whatsapp.net".toList) ∧
    formatRecipient "+919876543210".toList = formatRecipient "919876543210".toList ∧
    formatRecipient "9876543210".toList = "919876543210@s.whatsapp.net".toList ∧
    formatRecipient "+919876543210".toList = "919876543210@s.whatsapp.net".toList := by
  refine ⟨?_, by decide, by decide, by decide⟩
  intro s
  simp only [formatRecipient]
  by_cases hl : (stripNonDigits s).length = 10
  · rw [if_pos hl]
    have hc : (('9' :: '1' :: stripNonDigits s).contains '@') = false := by
      rw [List.contains_cons, List.contains_cons, stripNonDigits_contains_at]
      rfl
    rw [hc]
    rfl
  · rw [if_neg hl, stripNonDigits_contains_at]
    rfl

/-! ### Message-dispatch log-lifecycle claim -/

/-- C7: a `sendMessage` call that passes the active-connection and
rate-limit checks creates exactly one log row, inserted `pending` before
the network send, and returns (rather than throws) with the row in a
terminal state: `sent` with `sentAt` set on success, `failed` with the
error text recorded on any send-time failure; no row is left `pending`. -/
theorem sendMessage_log_lifecycle (clients : List (Nat × ActiveClient))
    (rateEntry : Option RateLimitEntry) (now : Int) (sessionId userId : Nat)
    (recipient : List Char) (message : String) (c : ActiveClient)
    (hactive : mapGet clients sessionId = some c)
    (hallow : (checkRateLimit now rateEntry).1.allowed = true) :
    sendMessage clients rateEntry now sessionId userId recipient message SendOutcome.ok
      = Except.ok
          (⟨userId, sessionId, recipient, message, MessageStatus.sent, none, some now⟩,
           [LogEvent.insertLog
              ⟨userId, sessionId, recipient, message, MessageStatus.pending, none, none⟩,
            LogEvent.netSend (formatRecipient recipient),
            LogEvent.saveLog
              ⟨userId, sessionId, recipient, message, MessageStatus.sent, none,
               some now⟩]) ∧
    (∀ m, sendMessage clients rateEntry now sessionId userId recipient message
          (SendOutcome.err m)
        = Except.ok
            (⟨userId, sessionId, recipient, message, MessageStatus.failed, some m, none⟩,
             [LogEvent.insertLog
                ⟨userId, sessionId, recipient, message, MessageStatus.pending, none, none⟩,
              LogEvent.netSend (formatRecipient recipient),
              LogEvent.saveLog
                ⟨userId, sessionId, recipient, message, MessageStatus.failed, some m,
                 none⟩])) ∧
    MessageStatus.sent ≠ MessageStatus.pending ∧
    MessageStatus.failed ≠ MessageStatus.pending := by
  refine ⟨?_, ?_, by decide, by decide⟩
  · simp [sendMessage, hactive, hallow]
  · intro m
    simp [sendMessage, hactive, hallow]

/-- Concrete run of C7: one registered client for session 1, an empty rate
map, a successful send and a failing send. -/
theorem sendMessage_log_lifecycle_witness :
    sendMessage [(1, ⟨42, 1, 7, 0, 0, none⟩)] none 0 1 7
        "9876543210".toList "hi" SendOutcome.ok
      = Except.ok
          (⟨7, 1, "9876543210".toList, "hi", MessageStatus.sent, none, some 0⟩,
           [LogEvent.insertLog
              ⟨7, 1, "9876543210".toList, "hi", MessageStatus.pending, none, none⟩,
            LogEvent.netSend (formatRecipient "9876543210".toList),
            LogEvent.saveLog
              ⟨7, 1, "9876543210".toList, "hi", MessageStatus.sent, none, some 0⟩]) ∧
    sendMessage [(1, ⟨42, 1, 7, 0, 0, none⟩)] none 0 1 7
        "9876543210".toList "hi" (SendOutcome.err "boom")
      = Except.ok
          (⟨7, 1, "9876543210".toList, "hi", MessageStatus.failed, some "boom", none⟩,
           [LogEvent.insertLog
              ⟨7, 1, "9876543210".toList, "hi", MessageStatus.pending, none, none⟩,
            LogEvent.netSend (formatRecipient "9876543210".toList),
            LogEvent.saveLog
              ⟨7, 1, "9876543210".toList, "hi", MessageStatus.failed, some "boom",
               none⟩]) := by
  have h := sendMessage_log_lifecycle [(1, ⟨42, 1, 7, 0, 0, none⟩)] none 0 1 7
    "9876543210".toList "hi" ⟨42, 1, 7, 0, 0, none⟩ rfl rfl
  exact ⟨h.1, h.2.1 "boom"⟩

/-! ### Auto-restore claim -/

theorem restoreLoop_spec (l : List Session) :
    restoreLoop l
      = ⟨(l.filter (fun s => s.sessionData.isSome)).map Session.id,
         (l.filter (fun s => s.sessionData.isSome)).map (fun _ => (2000 : Int)),
         []⟩ := by
  induction l with
  | nil => rfl
  | cons s rest ih =>
      by_cases h : s.sessionData.isSome = true <;>
        simp [restoreLoop, h, ih, List.filter_cons]

theorem restoreLegacyLoop_spec (hasAuthDir : Nat → Bool) (l : List Session) :
    restoreLegacyLoop hasAuthDir l
      = ⟨(l.filter (fun s => hasAuthDir s.id)).map Session.id,
         (l.filter (fun s => hasAuthDir s.id)).map (fun _ => (3000 : Int)),
         (l.filter (fun s => !(hasAuthDir s.id))).map
           (fun s => (s.id, disconnectedMark))⟩ := by
  induction l with
  | nil => rfl
  | cons s rest ih =>
      by_cases h : hasAuthDir s.id = true <;>
        simp [restoreLegacyLoop, h, ih, List.filter_cons]

/-- C9 counterexample: a session persisted `connected` whose auth-state
blob is null is neither restored nor written back by `onModuleInit` of the
database-backed service — in particular it is not marked `disconnected`,
refuting the claim at this input. -/
theorem onModuleInit_auth_absent_not_marked_disconnected :
    (onModuleInitRestore [⟨1, 7, SessionStatus.connected, none⟩]).updates = [] ∧
    (onModuleInitRestore [⟨1, 7, SessionStatus.connected, none⟩]).initialized = [] ∧
    ¬ ∃ u ∈ (onModuleInitRestore [⟨1, 7, SessionStatus.connected, none⟩]).updates,
        u.2.status = some SessionStatus.disconnected := by
  refine ⟨by decide, by decide, by decide⟩

/-- C9 (amended): on process start, every session persisted as `connected`
with a non-null auth-state blob is re-initialized, with a fixed 2000 ms
stagger delay after each restore; sessions whose auth-state is absent are
skipped by the database-backed service — no repository update at all is
written for them.  Only the legacy whatsapp-web.js variant marks auth-less
connected sessions `disconnected` (with a 3000 ms stagger for restores). -/
theorem onModuleInit_restore_behavior (sessions : List Session)
    (hasAuthDir : Nat → Bool) :
    (onModuleInitRestore sessions).initialized
      = ((sessions.filter (fun s => s.status = SessionStatus.connected)).filter
          (fun s => s.sessionData.isSome)).map Session.id ∧
    (onModuleInitRestore sessions).staggerDelays
      = ((sessions.filter (fun s => s.status = SessionStatus.connected)).filter
          (fun s => s.sessionData.isSome)).map (fun _ => (2000 : Int)) ∧
    (onModuleInitRestore sessions).updates = [] ∧
    (onModuleInitRestoreLegacy sessions hasAuthDir).initialized
      = ((sessions.filter (fun s => s.status = SessionStatus.connected)).filter
          (fun s => hasAuthDir s.id)).map Session.id ∧
    (onModuleInitRestoreLegacy sessions hasAuthDir).updates
      = ((sessions.filter (fun s => s.status = SessionStatus.connected)).filter
          (fun s => !(hasAuthDir s.id))).map (fun s => (s.id, disconnectedMark)) := by
  unfold onModuleInitRestore onModuleInitRestoreLegacy
  rw [restoreLoop_spec, restoreLegacyLoop_spec]
  exact ⟨rfl, rfl, rfl, rfl, rfl⟩

end Whatsapp
